import Mathlib

/-!
Verification of the Fitness-bot conversation/payment/caching core
(`main.py`) by a shallow embedding in Lean.

Modelling conventions:
* SQLite tables become lists of row structures; `AUTOINCREMENT` ids are
  explicit `next…Id` counters in the `DB` state; `CURRENT_TIMESTAMP` is an
  explicit `now : Nat` argument.
* Python `float` values never take part in arithmetic in this program: they
  are only parsed from validated decimal strings, stored, and formatted
  back.  They are therefore modelled exactly as canonical decimals
  (`PyFloat`), which agrees with CPython parse/repr on such inputs.
* The Telegram transport is modelled by returning the list of reply texts
  (and, for `/approve`, the list of attempted outbound notifications).
-/

namespace FitnessBot

/-! ### Python string primitives used by the code

These are implemented over `List Char` by structural recursion so that
concrete instances of every theorem evaluate inside the kernel. -/

/-- ASCII decimal digit. -/
def isAsciiDigit (c : Char) : Bool := 48 ≤ c.toNat && c.toNat ≤ 57

/-- The characters Python `str.strip()` removes. -/
def isPyWs (c : Char) : Bool :=
  c = ' ' || c = '\t' || c = '\n' || c = '\x0d' || c = '\x0b' || c = '\x0c'

/-- Drop leading whitespace characters. -/
def dropLeadingWs : List Char → List Char
  | [] => []
  | c :: cs => if isPyWs c then dropLeadingWs cs else c :: cs

/-- Python `str.strip()` (whitespace at both ends). -/
def pyStrip (s : String) : String :=
  String.mk ((dropLeadingWs (dropLeadingWs s.data).reverse).reverse)

/-- Python `str.isdigit()` restricted to ASCII digits: nonempty and all
digit characters. -/
def pyIsDigit (s : String) : Bool := !s.data.isEmpty && s.data.all isAsciiDigit

/-- Remove the first occurrence of `'.'` from a character list. -/
def removeFirstDot : List Char → List Char
  | [] => []
  | c :: cs => if c = '.' then cs else c :: removeFirstDot cs

/-- Python `s.replace('.', '', 1)`. -/
def pyReplaceDotOnce (s : String) : String := String.mk (removeFirstDot s.data)

/-- Numeric value of an all-digit string (Python `int(...)` on the
validated input). -/
def digitsVal (s : String) : Nat :=
  s.data.foldl (fun n c => n * 10 + (c.toNat - 48)) 0

/-- Split on a single separator character (Python `str.split(sep)` for a
one-character separator: `"" ↦ [""]`, `"," ↦ ["", ""]`). -/
def splitOnCharAux (sep : Char) : List Char → List Char → List String
  | [], acc => [String.mk acc.reverse]
  | c :: cs, acc =>
    if c = sep then String.mk acc.reverse :: splitOnCharAux sep cs []
    else splitOnCharAux sep cs (c :: acc)

/-- Python `s.split(sep)` for a one-character separator. -/
def splitOnChar (sep : Char) (s : String) : List String :=
  splitOnCharAux sep s.data []

/-- Parse a nonempty all-digit string (the numeric conversion SQLite
applies to a text parameter compared against an INTEGER column). -/
def strToNat? (s : String) : Option Nat :=
  if pyIsDigit s then some (digitsVal s) else none

/-! ### Python floats as canonical decimals

The program parses `float(text)` from a string validated to be digits with
at most one dot, stores it, and (in the fingerprint) formats it back with
an f-string.  `PyFloat` is the canonical decimal `mantissa / 10 ^ exp`
with no trailing fractional zeros; `pyFloatRepr` is CPython `repr` on such
values. -/

structure PyFloat where
  mantissa : Nat
  exp : Nat
  deriving Repr, DecidableEq

/-- Strip trailing zeros of the fractional part. -/
def canonDecimal : Nat → Nat → PyFloat
  | m, 0 => ⟨m, 0⟩
  | m, e + 1 => if m % 10 = 0 then canonDecimal (m / 10) e else ⟨m, e + 1⟩

/-- Python `float(text)` on a string of digits containing at most one dot
(the shape guaranteed by the `height`/`weight` validation). -/
def pyFloatOfString (s : String) : PyFloat :=
  let intFrac := splitOnChar '.' s
  match intFrac with
  | [i] => canonDecimal (digitsVal i) 0
  | [i, f] => canonDecimal (digitsVal (i ++ f)) f.length
  | _ => canonDecimal 0 0

/-- Decimal digit string of `n`, padded with leading zeros to width `w`. -/
def padDigits (n w : Nat) : String :=
  let d := toString n
  String.mk (List.replicate (w - d.length) '0') ++ d

/-- CPython `repr`/f-string formatting of a canonical decimal float:
`180 ↦ "180.0"`, `⟨1805, 1⟩ ↦ "180.5"`, `⟨5, 1⟩ ↦ "0.5"`. -/
def pyFloatRepr : PyFloat → String
  | ⟨m, 0⟩ => toString m ++ ".0"
  | ⟨m, e + 1⟩ =>
    let d := padDigits m (e + 2)
    d.take (d.length - (e + 1)) ++ "." ++ d.drop (d.length - (e + 1))

/-! ### MD5 (`hashlib.md5(...).hexdigest()`)

A direct embedding of MD5 on byte lists; 32-bit machine words are `Nat`
mod `2 ^ 32`. -/

def m32 : Nat := 4294967296

def m32add (a b : Nat) : Nat := (a + b) % m32

def m32not (a : Nat) : Nat := 4294967295 - a % m32

def rotl32 (x n : Nat) : Nat := ((x % m32) <<< n ||| (x % m32) >>> (32 - n)) % m32

/-- Per-step left-rotation amounts. -/
def md5s : List Nat :=
  [7, 12, 17, 22, 7, 12, 17, 22, 7, 12, 17, 22, 7, 12, 17, 22,
   5, 9, 14, 20, 5, 9, 14, 20, 5, 9, 14, 20, 5, 9, 14, 20,
   4, 11, 16, 23, 4, 11, 16, 23, 4, 11, 16, 23, 4, 11, 16, 23,
   6, 10, 15, 21, 6, 10, 15, 21, 6, 10, 15, 21, 6, 10, 15, 21]

/-- Sine-derived additive constants `⌊|sin(i+1)| · 2^32⌋`. -/
def md5K : List Nat :=
  [3614090360, 3905402710, 606105819, 3250441966, 4118548399, 1200080426,
   2821735955, 4249261313, 1770035416, 2336552879, 4294925233, 2304563134,
   1804603682, 4254626195, 2792965006, 1236535329, 4129170786, 3225465664,
   643717713, 3921069994, 3593408605, 38016083, 3634488961, 3889429448,
   568446438, 3275163606, 4107603335, 1163531501, 2850285829, 4243563512,
   1735328473, 2368359562, 4294588738, 2272392833, 1839030562, 4259657740,
   2763975236, 1272893353, 4139469664, 3200236656, 681279174, 3936430074,
   3572445317, 76029189, 3654602809, 3873151461, 530742520, 3299628645,
   4096336452, 1126891415, 2878612391, 4237533241, 1700485571, 2399980690,
   4293915773, 2240044497, 1873313359, 4264355552, 2734768916, 1309151649,
   4149444226, 3174756917, 718787259, 3951481745]

/-- MD5 padding: append `0x80`, zero-fill to 56 mod 64, then the original
bit length as 8 little-endian bytes. -/
def md5pad (msg : List Nat) : List Nat :=
  let bitLen := (msg.length * 8) % (2 ^ 64)
  let zeros := (119 - msg.length % 64) % 64
  msg ++ [128] ++ List.replicate zeros 0 ++
    (List.range 8).map (fun i => bitLen >>> (8 * i) % 256)

/-- Split a padded message into 64-byte chunks. -/
def md5chunks : List Nat → List (List Nat)
  | [] => []
  | b₀ :: rest =>
    let chunk := (b₀ :: rest).take 64
    let remaining := (b₀ :: rest).drop 64
    have : remaining.length < (b₀ :: rest).length := by
      simp only [remaining, List.length_drop, List.length_cons]
      omega
    chunk :: md5chunks remaining
  termination_by l => l.length

/-- 16 little-endian 32-bit words of a 64-byte chunk. -/
def md5words (chunk : List Nat) : List Nat :=
  (List.range 16).map (fun i =>
    (chunk.getD (4 * i) 0) + (chunk.getD (4 * i + 1) 0) <<< 8 +
    (chunk.getD (4 * i + 2) 0) <<< 16 + (chunk.getD (4 * i + 3) 0) <<< 24)

/-- One MD5 step: nonlinear function, message-word index selection,
rotation, and register rotation. -/
def md5step (M : List Nat) (st : Nat × Nat × Nat × Nat) (i : Nat) :
    Nat × Nat × Nat × Nat :=
  let (a, b, c, d) := st
  let (f, g) :=
    if i < 16 then ((b &&& c) ||| (m32not b &&& d), i)
    else if i < 32 then ((d &&& b) ||| (m32not d &&& c), (5 * i + 1) % 16)
    else if i < 48 then (b ^^^ c ^^^ d, (3 * i + 5) % 16)
    else (c ^^^ (b ||| m32not d), (7 * i) % 16)
  let f' := m32add (m32add (m32add f a) (md5K.getD i 0)) (M.getD g 0)
  (d, m32add b (rotl32 f' (md5s.getD i 0)), b, c)

/-- MD5 compression of one chunk into the running state. -/
def md5compress (st : Nat × Nat × Nat × Nat) (chunk : List Nat) :
    Nat × Nat × Nat × Nat :=
  let M := md5words chunk
  let (a, b, c, d) := (List.range 64).foldl (md5step M) st
  let (a₀, b₀, c₀, d₀) := st
  (m32add a₀ a, m32add b₀ b, m32add c₀ c, m32add d₀ d)

/-- Lowercase hex of one byte. -/
def hexByte (b : Nat) : String :=
  let dig (n : Nat) : Char := if n < 10 then Char.ofNat (48 + n) else Char.ofNat (87 + n)
  String.mk [dig (b / 16 % 16), dig (b % 16)]

/-- Little-endian lowercase hex of a 32-bit word. -/
def hexWordLE (w : Nat) : String :=
  hexByte (w % 256) ++ hexByte (w >>> 8 % 256) ++ hexByte (w >>> 16 % 256) ++
    hexByte (w >>> 24 % 256)

/-- `hashlib.md5(bytes).hexdigest()`. -/
def md5hex (msg : List Nat) : String :=
  let init : Nat × Nat × Nat × Nat :=
    (1732584193, 4023233417, 2562383102, 271733878)
  let (a, b, c, d) := (md5chunks (md5pad msg)).foldl md5compress init
  hexWordLE a ++ hexWordLE b ++ hexWordLE c ++ hexWordLE d

/-- UTF-8 bytes of a string (Python `str.encode()`). -/
def strBytes (s : String) : List Nat := s.toUTF8.toList.map UInt8.toNat

/-! ### Data model (`init_db`)

Each SQLite table is a list of rows in insertion (rowid) order.  Nullable
columns are `Option`; `AUTOINCREMENT` ids and `CURRENT_TIMESTAMP` values
are supplied through the `DB` counters and the `now` arguments. -/

structure GymRow where
  rid : Nat
  gym_id : String
  gym_name : String
  admin_chat_id : String
  welcome_message : String
  price_toman : Nat
  price_ton : PyFloat
  bank_card : String
  card_owner : String
  ton_wallet : String
  created_at : Nat
  deriving Repr, DecidableEq

structure UserRow where
  rid : Nat
  user_id : String
  gym_id : String
  username : Option String
  full_name : Option String
  age : Option Nat
  height : Option PyFloat
  weight : Option PyFloat
  gender : Option String
  goal : Option String
  dietary_restrictions : Option String
  preferred_foods : Option String
  payment_status : String
  created_at : Nat
  updated_at : Nat
  deriving Repr, DecidableEq

/-- The profile dict assembled by the conversation handler (all keys
present; values may be Python `None`). -/
structure Profile where
  username : Option String
  full_name : Option String
  age : Option Nat
  height : Option PyFloat
  weight : Option PyFloat
  gender : Option String
  goal : Option String
  dietary_restrictions : Option String
  preferred_foods : Option String
  deriving Repr, DecidableEq

structure ProgramRow where
  rid : Nat
  gym_id : String
  program_hash : String
  program_type : String
  program_data : String
  /-- `json.dumps(user_profile)` at the persistence boundary is modelled by
  keeping the profile snapshot itself. -/
  user_profile : Profile
  created_at : Nat
  deriving Repr, DecidableEq

structure PaymentRow where
  rid : Nat
  user_id : String
  gym_id : String
  amount_toman : Nat
  amount_ton : PyFloat
  payment_method : String
  status : String
  admin_verified : Bool
  created_at : Nat
  verified_at : Option Nat
  deriving Repr, DecidableEq

structure DB where
  gyms : List GymRow
  users : List UserRow
  programs : List ProgramRow
  payments : List PaymentRow
  nextGymId : Nat
  nextUserId : Nat
  nextProgramId : Nat
  nextPaymentId : Nat
  deriving Repr, DecidableEq

/-- Fresh database right after `init_db()`. -/
def DB.empty : DB := ⟨[], [], [], [], 1, 1, 1, 1⟩

/-! ### Persistence gateway -/

/-- `save_user_profile`: the source issues `INSERT OR REPLACE INTO users`,
but `users` carries no uniqueness constraint on `(user_id, gym_id)` (only
the autoincrement primary key, which the statement does not supply), so no
conflict can arise and the statement always inserts a fresh row;
`payment_status` takes its column default `'pending'`. -/
def save_user_profile (db : DB) (now : Nat) (user_id gym_id : String)
    (profile : Profile) : DB :=
  { db with
    users := db.users ++ [⟨db.nextUserId, user_id, gym_id, profile.username,
      profile.full_name, profile.age, profile.height, profile.weight,
      profile.gender, profile.goal, profile.dietary_restrictions,
      profile.preferred_foods, "pending", now, now⟩],
    nextUserId := db.nextUserId + 1 }

/-- `save_program`: plain append-only insert. -/
def save_program (db : DB) (now : Nat) (gym_id program_hash program_type
    program_data : String) (user_profile : Profile) : DB :=
  { db with
    programs := db.programs ++ [⟨db.nextProgramId, gym_id, program_hash,
      program_type, program_data, user_profile, now⟩],
    nextProgramId := db.nextProgramId + 1 }

/-- Scan for the row with maximal `created_at`, preferring the later
inserted row on ties. -/
def latestFrom (b : ProgramRow) : List ProgramRow → ProgramRow
  | [] => b
  | r :: rs => latestFrom (if b.created_at ≤ r.created_at then r else b) rs

/-- `SELECT … ORDER BY created_at DESC LIMIT 1` over the matching rows:
the row with maximal `created_at`, the latest-inserted one on ties. -/
def latestByCreated : List ProgramRow → Option ProgramRow
  | [] => none
  | r :: rs => some (latestFrom r rs)

/-- `get_cached_program`. -/
def get_cached_program (db : DB) (program_hash gym_id : String) :
    Option String :=
  (latestByCreated (db.programs.filter (fun r =>
    r.program_hash == program_hash && r.gym_id == gym_id))).map
    ProgramRow.program_data

/-! ### Fingerprint (`make_hash`) -/

/-- Python f-string interpolation of a dict value: `None` renders as
`"None"` (the assembled profile dict always carries every key, so the
`.get(…, '')` default is never taken). -/
def fmtOpt (f : α → String) : Option α → String
  | none => "None"
  | some v => f v

/-- The interpolated string `f"{type}_{age}_{height}_{weight}_{gender}_{goal}"`
hashed by `make_hash`. -/
def hashInput (user_profile : Profile) (program_type : String) : String :=
  program_type ++ "_" ++ fmtOpt toString user_profile.age ++ "_" ++
    fmtOpt pyFloatRepr user_profile.height ++ "_" ++
    fmtOpt pyFloatRepr user_profile.weight ++ "_" ++
    fmtOpt id user_profile.gender ++ "_" ++ fmtOpt id user_profile.goal

/-- `make_hash`. -/
def make_hash (user_profile : Profile) (program_type : String) : String :=
  md5hex (strBytes (hashInput user_profile program_type))

/-- `fallback_program_text` (ignores its argument in the source too). -/
def fallback_program_text (_user_profile : Profile) : String :=
  "🏋️‍♂️ برنامه تمرینی نمونه (فِال‌بک)\n\n" ++
  "🔹 برنامه ۳ روزه در هفته: \n" ++
  "روز 1: حرکت‌های سینه و سرشانه (۳ ست × 10-12 تکرار)\n" ++
  "روز 2: پشت و جلو بازو\n" ++
  "روز 3: پاها\n\n" ++
  "🥗 تغذیه: پروتئین کافی، سبزیجات، هیدرات کافی.\n\n" ++
  "توضیح: برای برنامه دقیق‌تر، کلید OpenAI را در env قرار بده."

/-- Modelled from the spec: the repository defines every piece of the
artifact generator (`make_hash`, `get_cached_program`,
`generate_with_openai`, `fallback_program_text`, `save_program`) but the
orchestration `generate(profile, type)` that §4.2 describes is not present
in `main.py`; it is modelled here from the spec's algorithm: (1) compute
the fingerprint, (2) return the most recent cached artifact for
(fingerprint, gym) if any, without touching the provider and without a new
row, (3) otherwise call the provider (whose error/absence yields `none`,
modelling the swallowed failure of `generate_with_openai`), (4) fall back
to the static text, (5) persist a fresh Program row, (6) return the text.
The returned `Bool` records whether the provider boundary was invoked. -/
def generate (provider : Profile → Option String) (db : DB) (now : Nat)
    (gym_id : String) (profile : Profile) (program_type : String) :
    DB × String × Bool :=
  let h := make_hash profile program_type
  match get_cached_program db h gym_id with
  | some cached => (db, cached, false)
  | none =>
    let text :=
      match provider profile with
      | some t => t
      | none => fallback_program_text profile
    (save_program db now gym_id h program_type text profile, text, true)

/-! ### Conversation state machine

`context.user_data` is the transient per-user session dict; replies are
collected as a list of texts. -/

structure Session where
  gym_id : Option String
  step : Option String
  age : Option Nat
  height : Option PyFloat
  weight : Option PyFloat
  gender : Option String
  goal : Option String
  dietary_restrictions : Option String
  preferred_foods : Option String
  deriving Repr, DecidableEq

/-- `context.user_data.clear()` / fresh session. -/
def Session.empty : Session :=
  ⟨none, none, none, none, none, none, none, none, none⟩

/-- The identity fields the chat transport supplies with each event. -/
structure TgUser where
  id : Nat
  username : Option String
  first_name : String
  last_name : Option String
  deriving Repr, DecidableEq

/-- `f"{user.first_name or ''} {user.last_name or ''}".strip()`. -/
def fullNameOf (u : TgUser) : String :=
  pyStrip (u.first_name ++ " " ++ u.last_name.getD "")

/-! Reply texts, verbatim from the source. -/

def startHintMsg : String := "برای شروع /start را بزنید."

def agePromptMsg : String := "لطفاً سن خود را به عدد وارد کنید:"

def ageInvalidMsg : String := "لطفاً سن را به صورت عدد وارد کنید."

def heightPromptMsg : String := "قد (سانتی‌متر) را وارد کنید:"

def heightInvalidMsg : String := "قد را به صورت عدد (سانتی‌متر) وارد کنید."

def weightPromptMsg : String := "وزن (کیلوگرم) را وارد کنید:"

def weightInvalidMsg : String := "وزن را به صورت عدد وارد کنید."

def genderPromptMsg : String := "جنسیت (مرد/زن) را وارد کنید:"

def goalPromptMsg : String := "هدف (مثلاً کاهش وزن یا عضله‌سازی) را وارد کنید:"

def dietPromptMsg : String :=
  "محدودیت غذایی یا آلرژی دارید؟ اگر نه \x27ندارد\x27 بنویسید:"

def foodsPromptMsg : String :=
  "غذاهای مورد علاقه خود را بنویسید (مثلاً: مرغ، برنج، سبزی):"

def savedMsg : String :=
  "اطلاعات ذخیره شد. حالا گزینه پرداخت را انتخاب کنید تا برنامه تکمیل شود.\n\n1) کارت به کارت\n2) کیف پول TON\n\nبرای پرداخت، /pay را بزنید."

def fallbackMsg : String :=
  "متوجه نشدم، لطفاً دوباره تلاش کن یا /start را بزنید."

def adminOnlyMsg : String := "فقط ادمین می‌تواند این دستور را اجرا کند."

def noPendingMsg : String := "پرداخت معوقی وجود ندارد."

def approveUsageMsg : String := "استفاده: /approve <payment_id>"

def notFoundMsg : String :=
  "پرداختی با این مشخصات پیدا نشد یا قبلاً تایید شده."

def approvedMsg (pid : String) : String :=
  "پرداخت " ++ pid ++ " تایید شد و وضعیت کاربر به \x27paid\x27 تغییر کرد."

def notifyUserMsg : String :=
  "پرداخت شما توسط ادمین تایید شد. در حال تولید و ارسال برنامه می‌باشیم."

def gymMissingMsg : String := "باشگاه پیدا نشد، با ادمین تماس بگیرید."

/-- `cb_handler` on a button press (`q.data`): only `"start_profile"` is
handled — it records the gym and enters the `age` step. -/
def cb_handler (data : String) (sess : Session) : Session × List String :=
  if data = "start_profile" then
    ({ sess with gym_id := some "default_gym", step := some "age" },
     [agePromptMsg])
  else (sess, [])

/-- `msg_handler`: the step-by-step collection state machine.  Returns the
new session, the new database, and the replies sent. -/
def msg_handler (u : TgUser) (rawText : String) (sess : Session) (db : DB)
    (now : Nat) : Session × DB × List String :=
  let user_id := toString u.id
  let text := pyStrip rawText
  match sess.step with
  | none => (sess, db, [startHintMsg])
  | some step =>
    if step = "age" then
      if !pyIsDigit text then (sess, db, [ageInvalidMsg])
      else ({ sess with age := some (digitsVal text), step := some "height" },
            db, [heightPromptMsg])
    else if step = "height" then
      if !pyIsDigit (pyReplaceDotOnce text) then (sess, db, [heightInvalidMsg])
      else
        ({ sess with height := some (pyFloatOfString text), step := some "weight" },
         db, [weightPromptMsg])
    else if step = "weight" then
      if !pyIsDigit (pyReplaceDotOnce text) then (sess, db, [weightInvalidMsg])
      else
        ({ sess with weight := some (pyFloatOfString text), step := some "gender" },
         db, [genderPromptMsg])
    else if step = "gender" then
      ({ sess with gender := some text, step := some "goal" }, db,
       [goalPromptMsg])
    else if step = "goal" then
      ({ sess with goal := some text, step := some "diet" }, db,
       [dietPromptMsg])
    else if step = "diet" then
      ({ sess with dietary_restrictions := some text, step := some "foods" },
       db, [foodsPromptMsg])
    else if step = "foods" then
      let sess1 := { sess with preferred_foods := some text }
      let profile : Profile :=
        { username := u.username,
          full_name := some (fullNameOf u),
          age := sess1.age,
          height := sess1.height,
          weight := sess1.weight,
          gender := sess1.gender,
          goal := sess1.goal,
          dietary_restrictions := sess1.dietary_restrictions,
          preferred_foods := sess1.preferred_foods }
      (Session.empty, save_user_profile db now user_id "default_gym" profile,
       [savedMsg])
    else (sess, db, [fallbackMsg])

/-- Run `msg_handler` over a list of inbound messages, accumulating
replies. -/
def runMsgs (u : TgUser) (now : Nat) :
    List String → Session → DB → Session × DB × List String
  | [], sess, db => (sess, db, [])
  | m :: ms, sess, db =>
    let (s₁, db₁, out₁) := msg_handler u m sess db now
    let (s₂, db₂, out₂) := runMsgs u now ms s₁ db₁
    (s₂, db₂, out₁ ++ out₂)

/-! ### Payment workflow -/

/-- Static configuration read from the environment; an unset variable is
the empty string (the `os.getenv(…, "")` defaults). -/
structure Config where
  admin_chat_id : String
  bank_card_number : String
  card_owner_name : String
  ton_wallet : String
  deriving Repr, DecidableEq

/-- `[int(x) for x in (os.getenv("ADMIN_CHAT_ID","") or "").split(",") if
x.strip().isdigit()]`, re-evaluated on every admin command. -/
def parseAdminIds (cfg : String) : List Nat :=
  ((splitOnChar ',' cfg).filter (fun x => pyIsDigit (pyStrip x))).map
    (fun x => digitsVal (pyStrip x))

/-- `/pay`: read the default gym's prices and insert a pending payment
(note the source stores the literal `"pending"` as `payment_method`). -/
def cmd_pay (cfg : Config) (u : TgUser) (db : DB) (now : Nat) :
    DB × List String :=
  let user_id := toString u.id
  match db.gyms.find? (fun g => g.gym_id == "default_gym") with
  | none => (db, [gymMissingMsg])
  | some g =>
    let pid := db.nextPaymentId
    let db' := { db with
      payments := db.payments ++ [⟨pid, user_id, "default_gym", g.price_toman,
        g.price_ton, "pending", "pending", false, now, none⟩],
      nextPaymentId := db.nextPaymentId + 1 }
    let text := "پرداخت ایجاد شد (id=" ++ toString pid ++
      "). برای پرداخت کارت به کارت شماره کارت زیر:\n\nشماره کارت: " ++
      cfg.bank_card_number ++ "\nبه نام: " ++ cfg.card_owner_name ++
      "\n\nیا انتقال TON به:\n" ++ cfg.ton_wallet ++
      "\n\nبعد از انتقال، عکس رسید یا شناسه تراکنش را برای این ربات ارسال کنید یا /confirm " ++
      toString pid ++ " را بزنید تا برای ادمین جهت تایید ارسال شود."
    (db', [text])

/-- Insertion into a list sorted by `created_at` descending (stable, so
equal timestamps keep their relative order, matching the engine's stable
scan). -/
def insertByCreatedDesc (p : PaymentRow) : List PaymentRow → List PaymentRow
  | [] => [p]
  | q :: qs =>
    if q.created_at < p.created_at then p :: q :: qs
    else q :: insertByCreatedDesc p qs

/-- `ORDER BY created_at DESC` over the pending payments. -/
def pendingSorted (db : DB) : List PaymentRow :=
  (db.payments.filter (fun p => p.status == "pending")).foldr
    insertByCreatedDesc []

/-- One line of the `/admin` pending listing. -/
def pendingLine (p : PaymentRow) : String :=
  "id: " ++ toString p.rid ++ " | user: " ++ p.user_id ++ " | " ++
    toString p.amount_toman ++ " تومان | " ++ pyFloatRepr p.amount_ton ++
    " TON | " ++ toString p.created_at ++ "\n"

/-- `/admin`: list pending payments; allowed only for identities in the
re-parsed admin allow-list. -/
def cmd_admin (cfg : Config) (caller : Nat) (db : DB) : DB × List String :=
  let admin_ids := parseAdminIds cfg.admin_chat_id
  if caller ∉ admin_ids then (db, [adminOnlyMsg])
  else
    let rows := pendingSorted db
    if rows.isEmpty then (db, [noPendingMsg])
    else (db, [rows.foldl (fun t p => t ++ pendingLine p) "پرداخت‌های معلق:\n"])

/-- `/pending` is an alias that simply calls `cmd_admin`. -/
def cmd_pending (cfg : Config) (caller : Nat) (db : DB) : DB × List String :=
  cmd_admin cfg caller db

/-- The SQLite comparison `payments.id = ?` with a text parameter against
an INTEGER-affinity column: the text converts to a number when it is one,
otherwise nothing matches. -/
def pidMatches (arg : String) (rid : Nat) : Bool :=
  strToNat? arg == some rid

/-- A record of one attempted outbound notification: recipient user id,
text, and whether the transport delivered it (the `try/except` swallows a
failure). -/
structure NotifyAttempt where
  recipient : String
  text : String
  delivered : Bool
  deriving Repr, DecidableEq

/-- `/approve <id>`: authorization, argument check, lookup of the pending
payment, two-row status update, reply, then best-effort notification.
`notifyOk` models whether `context.bot.send_message` succeeds; its failure
is caught and ignored. -/
def cmd_approve (cfg : Config) (caller : Nat) (args : List String) (db : DB)
    (now : Nat) (notifyOk : Bool) : DB × List String × List NotifyAttempt :=
  let admin_ids := parseAdminIds cfg.admin_chat_id
  if caller ∉ admin_ids then (db, [adminOnlyMsg], [])
  else
    match args with
    | [] => (db, [approveUsageMsg], [])
    | pid :: _ =>
      match db.payments.find? (fun p =>
        pidMatches pid p.rid && p.status == "pending") with
      | none => (db, [notFoundMsg], [])
      | some row =>
        let db₁ := { db with
          payments := db.payments.map (fun q =>
            if pidMatches pid q.rid then
              { q with status := "approved", admin_verified := true,
                       verified_at := some now }
            else q),
          users := db.users.map (fun r =>
            if r.user_id == row.user_id && r.gym_id == row.gym_id then
              { r with payment_status := "paid" }
            else r) }
        (db₁, [approvedMsg pid], [⟨row.user_id, notifyUserMsg, notifyOk⟩])

/-! ## Sample data used by concrete theorems -/

/-- A fully collected profile (the end-to-end scenario of spec §8). -/
def sampleProfileA : Profile :=
  ⟨some "ali", some "Ali A", some 25, some ⟨180, 0⟩, some ⟨75, 0⟩,
   some "مرد", some "عضله‌سازی", some "ندارد", some "مرغ، برنج"⟩

/-- A second write for the same user with different fields. -/
def sampleProfileB : Profile :=
  ⟨some "ali", some "Ali A", some 26, some ⟨181, 0⟩, some ⟨76, 0⟩,
   some "مرد", some "کاهش وزن", some "لبنیات", some "ماهی"⟩

/-! ## Claim theorems -/

/-- Claim C1 (failing input): issuing the user-profile save twice for the
same `(user identifier, gym identifier)` pair leaves TWO rows for that
pair in `users`, not one — `INSERT OR REPLACE` never replaces because the
`users` table has no uniqueness constraint on `(user_id, gym_id)`, so the
claimed upsert-by-key/last-write-wins behavior does not hold; both the
first and the second write's field values persist, in distinct rows. -/
theorem save_user_profile_duplicates_pair :
    ((save_user_profile (save_user_profile DB.empty 100 "42" "default_gym"
        sampleProfileA) 200 "42" "default_gym" sampleProfileB).users.filter
      (fun r => r.user_id == "42" && r.gym_id == "default_gym")).length = 2
    ∧ (save_user_profile (save_user_profile DB.empty 100 "42" "default_gym"
        sampleProfileA) 200 "42" "default_gym" sampleProfileB).users.map
      UserRow.age = [some 25, some 26] := by
  constructor <;> rfl

/-- Concrete colliding pair for C2: the fingerprint input joins the key
fields with `'_'`, so these two profiles produce the same joined string. -/
def collideProfile₁ : Profile :=
  ⟨none, none, some 30, some ⟨70, 0⟩, some ⟨70, 0⟩, some "a_b", some "c",
   none, none⟩

/-- Second profile of the colliding pair (gender and goal both differ). -/
def collideProfile₂ : Profile :=
  ⟨none, none, some 30, some ⟨70, 0⟩, some ⟨70, 0⟩, some "a", some "b_c",
   none, none⟩

/-- Claim C2 (counterexample): two profiles whose `gender` and `goal` both
differ can nevertheless share a fingerprint, because the hashed string
joins the fields with `'_'` separators: gender `"a_b"`, goal `"c"` and
gender `"a"`, goal `"b_c"` interpolate to the same string, refuting the
claim that the fingerprint differs whenever one of age, height, weight,
gender or goal differs. -/
theorem make_hash_collision_distinct_fields :
    collideProfile₁.gender ≠ collideProfile₂.gender
    ∧ collideProfile₁.goal ≠ collideProfile₂.goal
    ∧ make_hash collideProfile₁ "full_program"
        = make_hash collideProfile₂ "full_program" := by
  refine ⟨by decide, by decide, ?_⟩
  have h : hashInput collideProfile₁ "full_program"
      = hashInput collideProfile₂ "full_program" := by decide
  simp only [make_hash, h]

/-- Claim C2 (amended): the fingerprint is a function of
`(type, age, height, weight, gender, goal)` alone — two profiles agreeing
on those five profile fields (whatever their dietary restrictions,
preferred foods, or identity fields) get the same fingerprint. -/
theorem make_hash_depends_only_on_key_fields (p₁ p₂ : Profile) (t : String)
    (hage : p₁.age = p₂.age) (hht : p₁.height = p₂.height)
    (hwt : p₁.weight = p₂.weight) (hg : p₁.gender = p₂.gender)
    (hgl : p₁.goal = p₂.goal) :
    make_hash p₁ t = make_hash p₂ t := by
  simp only [make_hash, hashInput, hage, hht, hwt, hg, hgl]

/-- Profile differing from `witDietProfile₂` only in diet/foods/identity. -/
def witDietProfile₁ : Profile :=
  ⟨some "ali", some "Ali A", some 25, some ⟨180, 0⟩, some ⟨75, 0⟩,
   some "مرد", some "عضله‌سازی", some "ندارد", some "مرغ، برنج"⟩

/-- Profile differing from `witDietProfile₁` only in diet/foods/identity. -/
def witDietProfile₂ : Profile :=
  ⟨some "reza", some "Ali A", some 25, some ⟨180, 0⟩, some ⟨75, 0⟩,
   some "مرد", some "عضله‌سازی", some "لبنیات", some "ماهی"⟩

/-- Witness for C2's amended theorem: two concrete profiles differing in
dietary restrictions, preferred foods and username share a fingerprint. -/
theorem make_hash_depends_only_on_key_fields_witness :
    witDietProfile₁.dietary_restrictions ≠ witDietProfile₂.dietary_restrictions
    ∧ witDietProfile₁.preferred_foods ≠ witDietProfile₂.preferred_foods
    ∧ witDietProfile₁.username ≠ witDietProfile₂.username
    ∧ make_hash witDietProfile₁ "full_program"
        = make_hash witDietProfile₂ "full_program" :=
  ⟨by decide, by decide, by decide,
   make_hash_depends_only_on_key_fields witDietProfile₁ witDietProfile₂
     "full_program" rfl rfl rfl rfl rfl⟩

/-! ### Helper lemmas for the cache claim -/

/-- An empty cache lookup means no Program row matches the key. -/
lemma get_cached_program_eq_none (db : DB) (h g : String)
    (hc : get_cached_program db h g = none) :
    db.programs.filter (fun r => r.program_hash == h && r.gym_id == g) = [] := by
  rcases hfil : db.programs.filter (fun r => r.program_hash == h && r.gym_id == g)
    with _ | ⟨r, rs⟩
  · exact hfil
  · rw [get_cached_program, hfil] at hc
    simp [latestByCreated] at hc

/-- Looking up the key of a row just saved into a previously-empty cache
slot finds exactly that row's text. -/
lemma get_cached_program_after_save (db : DB) (now : Nat)
    (g h t text : String) (p : Profile)
    (hmiss : get_cached_program db h g = none) :
    get_cached_program (save_program db now g h t text p) h g = some text := by
  have hfil := get_cached_program_eq_none db h g hmiss
  rw [get_cached_program, save_program]
  simp only [List.filter_append, hfil, List.nil_append]
  simp [latestByCreated, latestFrom]

/-- Claim C3: a second `generate` with the same profile, type and gym
returns the text of the first call, does not invoke the provider
boundary, inserts no new Program row (the whole database is unchanged),
and the cache lookup after the first call already yields the first call's
text for that fingerprint and gym. -/
theorem generate_second_call_is_cache_hit
    (provider : Profile → Option String) (db : DB) (now now' : Nat)
    (gym : String) (p : Profile) (t : String) :
    let r₁ := generate provider db now gym p t
    let r₂ := generate provider r₁.1 now' gym p t
    r₂.2.1 = r₁.2.1 ∧ r₂.2.2 = false ∧ r₂.1 = r₁.1 ∧
      get_cached_program r₁.1 (make_hash p t) gym = some r₁.2.1 := by
  intro r₁ r₂
  rcases hc : get_cached_program db (make_hash p t) gym with _ | cached
  · -- cache miss on the first call: a fresh row is stored, found second time
    have h₁ : r₁ = (save_program db now gym (make_hash p t) t
        (match provider p with
         | some s => s
         | none => fallback_program_text p) p,
        (match provider p with
         | some s => s
         | none => fallback_program_text p), true) := by
      simp only [r₁, generate, hc]
    have hhit := get_cached_program_after_save db now gym (make_hash p t) t
      (match provider p with
       | some s => s
       | none => fallback_program_text p) p hc
    refine ⟨?_, ?_, ?_, ?_⟩ <;>
      simp only [r₂, r₁, generate, hc, hhit]
  · -- cache hit on the first call: nothing changed, second lookup agrees
    refine ⟨?_, ?_, ?_, ?_⟩ <;>
      simp only [r₂, r₁, generate, hc]

/-- Claim C4: at a numeric step (`age`, `height`, `weight`), a message
failing that step's validation predicate leaves the whole session — the
current step and every previously collected field — and the database
unchanged, and re-issues the step's numeric prompt. -/
theorem invalid_numeric_input_is_noop (u : TgUser) (sess : Session)
    (db : DB) (now : Nat) (raw : String) (st : String)
    (hstep : sess.step = some st)
    (hbad : st = "age" ∧ pyIsDigit (pyStrip raw) = false
          ∨ (st = "height" ∨ st = "weight")
            ∧ pyIsDigit (pyReplaceDotOnce (pyStrip raw)) = false) :
    msg_handler u raw sess db now =
      (sess, db,
       [if st = "age" then ageInvalidMsg
        else if st = "height" then heightInvalidMsg else weightInvalidMsg]) := by
  rcases hbad with ⟨h₁, h₂⟩ | ⟨h₁ | h₁, h₂⟩ <;> subst h₁ <;>
    simp [msg_handler, hstep, h₂]

/-- A session mid-flow: `height` step, with the age already collected. -/
def witSessionHeight : Session :=
  ⟨some "default_gym", some "height", some 25, none, none, none, none,
   none, none⟩

/-- A sample transport identity. -/
def witUser : TgUser := ⟨42, some "ali", "Ali", some "A"⟩

/-- Witness for C4: the concrete invalid input `"1.7.0"` at the `height`
step of a session that already holds `age = 25` changes nothing and
re-prompts for the height. -/
theorem invalid_numeric_input_is_noop_witness :
    witSessionHeight.step = some "height"
    ∧ pyIsDigit (pyReplaceDotOnce (pyStrip "1.7.0")) = false
    ∧ msg_handler witUser "1.7.0" witSessionHeight DB.empty 7
        = (witSessionHeight, DB.empty, [heightInvalidMsg]) := by
  refine ⟨rfl, by decide, ?_⟩
  have h := invalid_numeric_input_is_noop witUser witSessionHeight DB.empty 7
    "1.7.0" "height" rfl (Or.inr ⟨Or.inl rfl, by decide⟩)
  simpa using h

/-- The session produced by pressing the start-profile button on a fresh
session (`gym_id` recorded, step `age`). -/
def startSession : Session := (cb_handler "start_profile" Session.empty).1

/-- The User row written when the flow completes: session fields merged
with the transport identity fields, `payment_status` at its default. -/
def assembledRow (u : TgUser) (db : DB) (now : Nat)
    (a h w g go d f : String) : UserRow :=
  ⟨db.nextUserId, toString u.id, "default_gym", u.username,
   some (fullNameOf u), some (digitsVal (pyStrip a)),
   some (pyFloatOfString (pyStrip h)), some (pyFloatOfString (pyStrip w)),
   some (pyStrip g), some (pyStrip go), some (pyStrip d), some (pyStrip f),
   "pending", now, now⟩

/-- Claim C5 (counterexample): the claim quantifies over every session
that completes the step sequence, but completing the flow twice as the
same user — both completions perfectly valid sessions — leaves TWO rows
for the `(user identifier, gym identifier)` pair, because the save is a
plain insert (no uniqueness constraint backs the `INSERT OR REPLACE`), so
"persists it as one upserted User row" fails for any user who already has
a row for the pair. -/
theorem complete_flow_repeat_user_duplicates :
    (((runMsgs witUser 21
        ["26", "181", "76", "مرد", "کاهش وزن", "لبنیات", "ماهی"]
        startSession
        (runMsgs witUser 9
          ["25", "180", "75", "مرد", "عضله‌سازی", "ندارد", "مرغ، برنج"]
          startSession DB.empty).2.1).2.1).users.filter
      (fun r =>
        r.user_id == toString witUser.id && r.gym_id == "default_gym")).length
    = 2 := by
  decide

/-- Claim C5 (amended): a session that completes
`age → height → weight → gender → goal → diet → foods` with valid numeric
inputs, by a user with no pre-existing User row for the
`(user identifier, gym identifier)` pair, ends with the full profile
(session fields plus username and display name) persisted as a single
User row for the pair with every profile field populated, the session
cleared back to idle, the final reply directing the user to the payment
trigger, and no Program row generated (the whole rest of the database
untouched); for a repeat user the completion inserts a second row
instead of upserting. -/
theorem complete_flow_saves_profile (u : TgUser) (db : DB) (now : Nat)
    (a h w g go d f : String)
    (ha : pyIsDigit (pyStrip a) = true)
    (hh : pyIsDigit (pyReplaceDotOnce (pyStrip h)) = true)
    (hw : pyIsDigit (pyReplaceDotOnce (pyStrip w)) = true)
    (hfresh : db.users.filter (fun r =>
      r.user_id == toString u.id && r.gym_id == "default_gym") = []) :
    runMsgs u now [a, h, w, g, go, d, f] startSession db =
      (Session.empty,
       { db with users := db.users ++ [assembledRow u db now a h w g go d f],
                 nextUserId := db.nextUserId + 1 },
       [heightPromptMsg, weightPromptMsg, genderPromptMsg, goalPromptMsg,
        dietPromptMsg, foodsPromptMsg, savedMsg])
    ∧ (((runMsgs u now [a, h, w, g, go, d, f] startSession db).2.1).users.filter
        (fun r =>
          r.user_id == toString u.id && r.gym_id == "default_gym")).length
      = 1 := by
  have hrun : runMsgs u now [a, h, w, g, go, d, f] startSession db =
      (Session.empty,
       { db with users := db.users ++ [assembledRow u db now a h w g go d f],
                 nextUserId := db.nextUserId + 1 },
       [heightPromptMsg, weightPromptMsg, genderPromptMsg, goalPromptMsg,
        dietPromptMsg, foodsPromptMsg, savedMsg]) := by
    simp [runMsgs, msg_handler, startSession, cb_handler, ha, hh, hw,
      save_user_profile, assembledRow]
  refine ⟨hrun, ?_⟩
  rw [hrun]
  simp [List.filter_append, hfresh, assembledRow]

/-- Witness for C5: the end-to-end scenario of spec §8 — age 25, height
180, weight 75, then the free-text answers — run from a fresh database,
yields exactly the single assembled row and the payment prompt. -/
theorem complete_flow_saves_profile_witness :
    pyIsDigit (pyStrip "25") = true
    ∧ pyIsDigit (pyReplaceDotOnce (pyStrip "180")) = true
    ∧ pyIsDigit (pyReplaceDotOnce (pyStrip "75")) = true
    ∧ DB.empty.users.filter (fun r =>
        r.user_id == toString witUser.id && r.gym_id == "default_gym") = []
    ∧ runMsgs witUser 9 ["25", "180", "75", "مرد", "عضله‌سازی", "ندارد",
          "مرغ، برنج"] startSession DB.empty =
        (Session.empty,
         { DB.empty with
           users := DB.empty.users ++ [assembledRow witUser DB.empty 9 "25"
             "180" "75" "مرد" "عضله‌سازی" "ندارد" "مرغ، برنج"],
           nextUserId := DB.empty.nextUserId + 1 },
         [heightPromptMsg, weightPromptMsg, genderPromptMsg, goalPromptMsg,
          dietPromptMsg, foodsPromptMsg, savedMsg]) := by
  refine ⟨by decide, by decide, by decide, rfl, ?_⟩
  exact (complete_flow_saves_profile witUser DB.empty 9 "25" "180" "75"
    "مرد" "عضله‌سازی" "ندارد" "مرغ، برنج" (by decide) (by decide)
    (by decide) rfl).1

/-! ### Helper lemmas for the approval claims -/

/-- An authorized `/approve` whose lookup finds no pending payment with
the given id replies "not found" and does nothing. -/
lemma cmd_approve_of_find_none (cfg : Config) (caller : Nat)
    (pid : String) (rest : List String) (db : DB) (now : Nat) (ok : Bool)
    (hadmin : caller ∈ parseAdminIds cfg.admin_chat_id)
    (hfind : db.payments.find? (fun p =>
      pidMatches pid p.rid && p.status == "pending") = none) :
    cmd_approve cfg caller (pid :: rest) db now ok = (db, [notFoundMsg], []) := by
  rw [cmd_approve, if_neg (not_not_intro hadmin)]
  simp only [hfind]

/-- An authorized `/approve` that finds a pending payment performs exactly
the two-table update, replies with the success message, and attempts one
notification to the payment's user. -/
lemma cmd_approve_of_find_some (cfg : Config) (caller : Nat)
    (pid : String) (rest : List String) (db : DB) (now : Nat) (ok : Bool)
    (row : PaymentRow)
    (hadmin : caller ∈ parseAdminIds cfg.admin_chat_id)
    (hfind : db.payments.find? (fun p =>
      pidMatches pid p.rid && p.status == "pending") = some row) :
    cmd_approve cfg caller (pid :: rest) db now ok =
      ({ db with
         payments := db.payments.map (fun q =>
           if pidMatches pid q.rid then
             { q with status := "approved", admin_verified := true,
                      verified_at := some now }
           else q),
         users := db.users.map (fun r =>
           if r.user_id == row.user_id && r.gym_id == row.gym_id then
             { r with payment_status := "paid" }
           else r) },
       [approvedMsg pid], [⟨row.user_id, notifyUserMsg, ok⟩]) := by
  rw [cmd_approve, if_neg (not_not_intro hadmin)]
  simp only [hfind]

/-- After the approval update, every payment row matching the id is
`approved` and admin-verified. -/
lemma approved_after_update (pid : String) (now : Nat)
    (l : List PaymentRow) (q : PaymentRow)
    (hq : q ∈ l.map (fun q =>
      if pidMatches pid q.rid then
        { q with status := "approved", admin_verified := true,
                 verified_at := some now }
      else q))
    (hmatch : pidMatches pid q.rid = true) :
    q.status = "approved" ∧ q.admin_verified = true ∧
      q.verified_at = some now := by
  rcases List.mem_map.mp hq with ⟨q', _, rfl⟩
  by_cases hc : pidMatches pid q'.rid = true
  · simp [hc]
  · rw [if_neg (by simpa using hc)] at hmatch ⊢
    exact absurd hmatch hc

/-- Claim C6: approving an id that names no pending payment — because the
id is unknown or the payment's status is no longer `pending` — changes no
state, attempts no notification, and reports "not found"; in particular a
second `/approve` of an id just approved finds its payment `approved` and
admin-verified, leaves everything unchanged, notifies nobody, and reports
"not found" — there is no double transition. -/
theorem approve_is_idempotent :
    (∀ (cfg : Config) (caller : Nat) (pid : String) (rest : List String)
       (db : DB) (now : Nat) (ok : Bool),
       caller ∈ parseAdminIds cfg.admin_chat_id →
       (∀ p ∈ db.payments, pidMatches pid p.rid = true → p.status ≠ "pending") →
       cmd_approve cfg caller (pid :: rest) db now ok = (db, [notFoundMsg], []))
  ∧ (∀ (cfg : Config) (caller : Nat) (pid : String) (db : DB)
       (now : Nat) (ok : Bool) (now' : Nat) (ok' : Bool),
       caller ∈ parseAdminIds cfg.admin_chat_id →
       (db.payments.find? (fun p =>
         pidMatches pid p.rid && p.status == "pending")).isSome →
       (∀ q ∈ (cmd_approve cfg caller [pid] db now ok).1.payments,
          pidMatches pid q.rid = true →
            q.status = "approved" ∧ q.admin_verified = true)
       ∧ cmd_approve cfg caller [pid]
           (cmd_approve cfg caller [pid] db now ok).1 now' ok'
         = ((cmd_approve cfg caller [pid] db now ok).1, [notFoundMsg], [])) := by
  have noPending : ∀ (pid : String) (l : List PaymentRow),
      (∀ p ∈ l, pidMatches pid p.rid = true → p.status ≠ "pending") →
      l.find? (fun p => pidMatches pid p.rid && p.status == "pending") = none := by
    intro pid l hl
    rw [List.find?_eq_none]
    intro p hp
    by_cases hc : pidMatches pid p.rid = true
    · have := hl p hp hc
      simp [hc, this]
    · simp [Bool.eq_false_iff.mpr hc]
  constructor
  · intro cfg caller pid rest db now ok hadmin hnp
    exact cmd_approve_of_find_none cfg caller pid rest db now ok hadmin
      (noPending pid db.payments hnp)
  · intro cfg caller pid db now ok now' ok' hadmin hsome
    rcases Option.isSome_iff_exists.mp hsome with ⟨row, hfind⟩
    have happrove := cmd_approve_of_find_some cfg caller pid [] db now ok row
      hadmin hfind
    rw [happrove]
    have hstatus : ∀ q ∈ (db.payments.map (fun q =>
        if pidMatches pid q.rid then
          { q with status := "approved", admin_verified := true,
                   verified_at := some now }
        else q)), pidMatches pid q.rid = true →
          q.status = "approved" ∧ q.admin_verified = true := by
      intro q hq hm
      exact ⟨(approved_after_update pid now db.payments q hq hm).1,
             (approved_after_update pid now db.payments q hq hm).2.1⟩
    refine ⟨hstatus, ?_⟩
    apply cmd_approve_of_find_none cfg caller pid [] _ now' ok' hadmin
    apply noPending
    intro p hp hm
    rw [(approved_after_update pid now db.payments p hp hm).1]
    decide

/-- Admin allow-list configuration with the single id `7`. -/
def witCfg : Config := ⟨"7", "1111-2222", "Owner", "ton://wallet"⟩

/-- A pending payment for user `42` at the default gym. -/
def witPaymentPending : PaymentRow :=
  ⟨1, "42", "default_gym", 500000, ⟨5, 0⟩, "pending", "pending", false, 10,
   none⟩

/-- Database holding just the pending payment. -/
def witDBPay : DB :=
  { DB.empty with payments := [witPaymentPending], nextPaymentId := 2 }

/-- The same payment after an approval at time 20. -/
def witPaymentApproved : PaymentRow :=
  ⟨1, "42", "default_gym", 500000, ⟨5, 0⟩, "pending", "approved", true, 10,
   some 20⟩

/-- Database holding just the approved payment. -/
def witDBApproved : DB :=
  { DB.empty with payments := [witPaymentApproved], nextPaymentId := 2 }

/-- Witness for C6: with allow-list `{7}`, approving id 1 when its payment
is already `approved` is a no-op reporting "not found"; and after a first
successful approval of the pending payment, the second `/approve 1` leaves
the state unchanged, notifies nobody, and reports "not found". -/
theorem approve_is_idempotent_witness :
    7 ∈ parseAdminIds witCfg.admin_chat_id
    ∧ (∀ p ∈ witDBApproved.payments,
        pidMatches "1" p.rid = true → p.status ≠ "pending")
    ∧ cmd_approve witCfg 7 ["1"] witDBApproved 30 true
        = (witDBApproved, [notFoundMsg], [])
    ∧ (witDBPay.payments.find? (fun p =>
        pidMatches "1" p.rid && p.status == "pending")).isSome = true
    ∧ cmd_approve witCfg 7 ["1"]
        (cmd_approve witCfg 7 ["1"] witDBPay 20 true).1 30 false
      = ((cmd_approve witCfg 7 ["1"] witDBPay 20 true).1, [notFoundMsg], []) := by
  refine ⟨by decide, by decide, ?_, by decide, ?_⟩
  · exact approve_is_idempotent.1 witCfg 7 "1" [] witDBApproved 30 true
      (by decide) (by decide)
  · exact (approve_is_idempotent.2 witCfg 7 "1" witDBPay 20 true 30 false
      (by decide) (by decide)).2

/-- Claim C7: an authorized approval of a pending payment (i) rewrites the
payments table so the matching payment gets status `approved`, the
admin-verified flag, and the verification timestamp, (ii) rewrites the
users table so exactly the rows matching the payment's
`(user identifier, gym identifier)` pair get `payment_status = "paid"`
while every other row is kept unchanged, (iii) replies with the success
message, (iv) attempts one notification to the payment's user, and (v)
produces a committed state and reply that are identical whether or not
the notification delivery succeeds — a swallowed notification failure
never rolls the transition back. -/
theorem approve_success_transition (cfg : Config) (caller : Nat)
    (pid : String) (rest : List String) (db : DB) (now : Nat) (ok : Bool)
    (row : PaymentRow)
    (hadmin : caller ∈ parseAdminIds cfg.admin_chat_id)
    (hfind : db.payments.find? (fun p =>
      pidMatches pid p.rid && p.status == "pending") = some row) :
    ((cmd_approve cfg caller (pid :: rest) db now ok).1.payments
        = db.payments.map (fun q =>
            if pidMatches pid q.rid then
              { q with status := "approved", admin_verified := true,
                       verified_at := some now }
            else q)
      ∧ ∀ q ∈ (cmd_approve cfg caller (pid :: rest) db now ok).1.payments,
          pidMatches pid q.rid = true →
            q.status = "approved" ∧ q.admin_verified = true ∧
              q.verified_at = some now)
    ∧ ((cmd_approve cfg caller (pid :: rest) db now ok).1.users
        = db.users.map (fun r =>
            if r.user_id == row.user_id && r.gym_id == row.gym_id then
              { r with payment_status := "paid" }
            else r)
      ∧ (∀ r ∈ db.users, r.user_id = row.user_id → r.gym_id = row.gym_id →
          { r with payment_status := "paid" }
            ∈ (cmd_approve cfg caller (pid :: rest) db now ok).1.users)
      ∧ (∀ r ∈ db.users, ¬(r.user_id = row.user_id ∧ r.gym_id = row.gym_id) →
          r ∈ (cmd_approve cfg caller (pid :: rest) db now ok).1.users))
    ∧ (cmd_approve cfg caller (pid :: rest) db now ok).2.1
        = [approvedMsg pid]
    ∧ (cmd_approve cfg caller (pid :: rest) db now ok).2.2
        = [⟨row.user_id, notifyUserMsg, ok⟩]
    ∧ ∀ ok' : Bool,
        (cmd_approve cfg caller (pid :: rest) db now ok').1
          = (cmd_approve cfg caller (pid :: rest) db now ok).1
        ∧ (cmd_approve cfg caller (pid :: rest) db now ok').2.1
          = (cmd_approve cfg caller (pid :: rest) db now ok).2.1 := by
  have key := fun (b : Bool) =>
    cmd_approve_of_find_some cfg caller pid rest db now b row hadmin hfind
  refine ⟨⟨?_, ?_⟩, ⟨?_, ?_, ?_⟩, ?_, ?_, ?_⟩
  · rw [key ok]
  · intro q hq hm
    rw [key ok] at hq
    exact approved_after_update pid now db.payments q hq hm
  · rw [key ok]
  · intro r hr hru hrg
    rw [key ok]
    exact List.mem_map.mpr ⟨r, hr, by simp [hru, hrg]⟩
  · intro r hr hno
    rw [key ok]
    exact List.mem_map.mpr ⟨r, hr, by simp [hno]⟩
  · rw [key ok]
  · rw [key ok]
  · intro ok'
    rw [key ok, key ok']
    exact ⟨rfl, rfl⟩

/-- A user row for the paying user and one for an unrelated user. -/
def witUserRowMatch : UserRow :=
  ⟨1, "42", "default_gym", some "ali", some "Ali A", some 25, some ⟨180, 0⟩,
   some ⟨75, 0⟩, some "مرد", some "عضله‌سازی", some "ندارد",
   some "مرغ، برنج", "pending", 5, 5⟩

/-- A user row whose pair does not match the payment. -/
def witUserRowOther : UserRow :=
  ⟨2, "43", "default_gym", none, some "B", some 30, some ⟨170, 0⟩,
   some ⟨60, 0⟩, some "زن", some "کاهش وزن", some "ندارد", some "ماهی",
   "pending", 6, 6⟩

/-- Database with two user rows and the pending payment of user 42. -/
def witDBFull : DB :=
  { DB.empty with
    users := [witUserRowMatch, witUserRowOther],
    payments := [witPaymentPending],
    nextUserId := 3,
    nextPaymentId := 2 }

/-- Witness for C7: approving the concrete pending payment replies with
the success message, attempts exactly one notification to user 42, and
commits the same state whether or not the notification succeeds. -/
theorem approve_success_transition_witness :
    7 ∈ parseAdminIds witCfg.admin_chat_id
    ∧ witDBFull.payments.find? (fun p =>
        pidMatches "1" p.rid && p.status == "pending") = some witPaymentPending
    ∧ (cmd_approve witCfg 7 ["1"] witDBFull 20 true).2.1 = [approvedMsg "1"]
    ∧ (cmd_approve witCfg 7 ["1"] witDBFull 20 true).2.2
        = [⟨"42", notifyUserMsg, true⟩]
    ∧ (cmd_approve witCfg 7 ["1"] witDBFull 20 false).1
        = (cmd_approve witCfg 7 ["1"] witDBFull 20 true).1 := by
  have h := approve_success_transition witCfg 7 "1" [] witDBFull 20 true
    witPaymentPending (by decide) (by decide)
  exact ⟨by decide, by decide, h.2.2.1, h.2.2.2.1, (h.2.2.2.2 false).1⟩

/-! ### Helper lemmas for the authorization claims -/

/-- `/admin` for a caller outside the allow-list: fixed rejection, no
state change. -/
lemma cmd_admin_not_admin (cfg : Config) (caller : Nat) (db : DB)
    (h : caller ∉ parseAdminIds cfg.admin_chat_id) :
    cmd_admin cfg caller db = (db, [adminOnlyMsg]) := by
  simp [cmd_admin, h]

/-- `/approve` for a caller outside the allow-list: fixed rejection, no
state change, no notification. -/
lemma cmd_approve_not_admin (cfg : Config) (caller : Nat)
    (args : List String) (db : DB) (now : Nat) (ok : Bool)
    (h : caller ∉ parseAdminIds cfg.admin_chat_id) :
    cmd_approve cfg caller args db now ok = (db, [adminOnlyMsg], []) := by
  simp [cmd_approve, h]

/-- Claim C8: a caller whose identity is not in the parsed admin
allow-list gets the fixed rejection from the pending-payments listing
(both `/admin` and its `/pending` alias) and from `/approve`, with no
state change, no notification, and no payment data; and the replies are
literally independent of the stored payments and of the payload. -/
theorem unauthorized_caller_rejected (cfg : Config) (caller : Nat)
    (db db' : DB) (args args' : List String) (now now' : Nat) (ok ok' : Bool)
    (h : caller ∉ parseAdminIds cfg.admin_chat_id) :
    cmd_admin cfg caller db = (db, [adminOnlyMsg])
    ∧ cmd_pending cfg caller db = (db, [adminOnlyMsg])
    ∧ cmd_approve cfg caller args db now ok = (db, [adminOnlyMsg], [])
    ∧ (cmd_admin cfg caller db).2 = (cmd_admin cfg caller db').2
    ∧ (cmd_approve cfg caller args db now ok).2
        = (cmd_approve cfg caller args' db' now' ok').2 := by
  refine ⟨cmd_admin_not_admin cfg caller db h, ?_, ?_, ?_, ?_⟩
  · rw [cmd_pending]
    exact cmd_admin_not_admin cfg caller db h
  · exact cmd_approve_not_admin cfg caller args db now ok h
  · rw [cmd_admin_not_admin cfg caller db h, cmd_admin_not_admin cfg caller db' h]
  · rw [cmd_approve_not_admin cfg caller args db now ok h,
        cmd_approve_not_admin cfg caller args' db' now' ok' h]

/-- Witness for C8: caller 8 is not in the allow-list `"7"`, gets the
rejection from both commands on a database that does hold a pending
payment, and receives the same reply on a different database/payload. -/
theorem unauthorized_caller_rejected_witness :
    8 ∉ parseAdminIds witCfg.admin_chat_id
    ∧ cmd_admin witCfg 8 witDBFull = (witDBFull, [adminOnlyMsg])
    ∧ cmd_approve witCfg 8 ["1"] witDBFull 20 true
        = (witDBFull, [adminOnlyMsg], [])
    ∧ (cmd_approve witCfg 8 ["1"] witDBFull 20 true).2
        = (cmd_approve witCfg 8 [] DB.empty 99 false).2 := by
  have h := unauthorized_caller_rejected witCfg 8 witDBFull DB.empty ["1"] []
    20 99 true false (by decide)
  exact ⟨by decide, h.1, h.2.2.1, h.2.2.2.2⟩

/-- `create_default_gym`: insert the default tenant if absent, with the
configured payment destination details. -/
def create_default_gym (cfg : Config) (db : DB) (now : Nat) : DB :=
  if db.gyms.any (fun g => g.gym_id == "default_gym") then db
  else
    { db with
      gyms := db.gyms ++ [⟨db.nextGymId, "default_gym", "باشگاه نمونه",
        cfg.admin_chat_id, "به ربات خوش آمدید! 🏋️‍♂️", 500000, ⟨5, 0⟩,
        cfg.bank_card_number, cfg.card_owner_name, cfg.ton_wallet, now⟩],
      nextGymId := db.nextGymId + 1 }

/-- Claim C9: an authorized approval of a pending payment whose
`(user identifier, gym identifier)` pair matches no row of `users` still
succeeds — the users table is left exactly as it was (zero rows
modified), every payment row matching the id becomes `approved` with the
admin-verified flag and timestamp set, and the success message is
reported. -/
theorem approve_succeeds_without_user_rows (cfg : Config) (caller : Nat)
    (pid : String) (rest : List String) (db : DB) (now : Nat) (ok : Bool)
    (row : PaymentRow)
    (hadmin : caller ∈ parseAdminIds cfg.admin_chat_id)
    (hfind : db.payments.find? (fun p =>
      pidMatches pid p.rid && p.status == "pending") = some row)
    (husers : ∀ r ∈ db.users,
      ¬(r.user_id = row.user_id ∧ r.gym_id = row.gym_id)) :
    (cmd_approve cfg caller (pid :: rest) db now ok).1.users = db.users
    ∧ (∀ q ∈ (cmd_approve cfg caller (pid :: rest) db now ok).1.payments,
        pidMatches pid q.rid = true →
          q.status = "approved" ∧ q.admin_verified = true ∧
            q.verified_at = some now)
    ∧ (cmd_approve cfg caller (pid :: rest) db now ok).2.1
        = [approvedMsg pid] := by
  have key := cmd_approve_of_find_some cfg caller pid rest db now ok row
    hadmin hfind
  refine ⟨?_, ?_, ?_⟩
  · rw [key]
    have hid : ∀ r ∈ db.users, (fun r : UserRow =>
        if r.user_id == row.user_id && r.gym_id == row.gym_id then
          { r with payment_status := "paid" }
        else r) r = id r := by
      intro r hr
      simp [husers r hr]
    exact (List.map_congr_left hid).trans (List.map_id db.users)
  · intro q hq hm
    rw [key] at hq
    exact approved_after_update pid now db.payments q hq hm
  · rw [key]

/-- The user who pays without ever completing a profile. -/
def witPayUser : TgUser := ⟨42, none, "Ali", none⟩

/-- Database holding only the default gym (no users at all). -/
def witDBGymOnly : DB := create_default_gym witCfg DB.empty 0

/-- The database after `/pay` by user 42: one pending payment, no users. -/
def witDBPaid : DB := (cmd_pay witCfg witPayUser witDBGymOnly 15).1

/-- Witness for C9: user 42 creates a pending payment through `/pay`
without any profile row; the admin approves it; the payment flips to
`approved` with the verified flag while `users` stays empty. -/
theorem approve_succeeds_without_user_rows_witness :
    7 ∈ parseAdminIds witCfg.admin_chat_id
    ∧ witDBPaid.payments.find? (fun p =>
        pidMatches "1" p.rid && p.status == "pending")
      = some ⟨1, "42", "default_gym", 500000, ⟨5, 0⟩, "pending", "pending",
          false, 15, none⟩
    ∧ witDBPaid.users = []
    ∧ (cmd_approve witCfg 7 ["1"] witDBPaid 20 true).1.users = []
    ∧ (cmd_approve witCfg 7 ["1"] witDBPaid 20 true).2.1
        = [approvedMsg "1"] := by
  have h := approve_succeeds_without_user_rows witCfg 7 "1" [] witDBPaid 20
    true ⟨1, "42", "default_gym", 500000, ⟨5, 0⟩, "pending", "pending",
      false, 15, none⟩ (by decide) (by decide) (by decide)
  refine ⟨by decide, by decide, by decide, ?_, h.2.2⟩
  rw [h.1]
  decide

/-- Claim C10: when every comma-separated entry of the admin allow-list
configuration fails Python's `strip().isdigit()` test — in particular
when the variable is unset (the empty string) or holds only non-numeric
entries — the parsed admin id list is empty, so every caller of the
pending-payments listing and of `/approve` receives the fixed rejection
with no state change. -/
theorem empty_allowlist_rejects_everyone (cfg : Config)
    (h : ∀ x ∈ splitOnChar ',' cfg.admin_chat_id,
      pyIsDigit (pyStrip x) = false) :
    parseAdminIds cfg.admin_chat_id = []
    ∧ ∀ (caller : Nat) (db : DB) (args : List String) (now : Nat) (ok : Bool),
        cmd_admin cfg caller db = (db, [adminOnlyMsg])
        ∧ cmd_pending cfg caller db = (db, [adminOnlyMsg])
        ∧ cmd_approve cfg caller args db now ok
            = (db, [adminOnlyMsg], []) := by
  have hp : parseAdminIds cfg.admin_chat_id = [] := by
    rw [parseAdminIds]
    have hfil : (splitOnChar ',' cfg.admin_chat_id).filter
        (fun x => pyIsDigit (pyStrip x)) = [] := by
      rw [List.filter_eq_nil_iff]
      intro x hx
      simp [h x hx]
    rw [hfil]
    rfl
  refine ⟨hp, fun caller db args now ok => ?_⟩
  have hnot : caller ∉ parseAdminIds cfg.admin_chat_id := by
    rw [hp]
    exact List.not_mem_nil caller
  exact ⟨cmd_admin_not_admin cfg caller db hnot,
    by rw [cmd_pending]; exact cmd_admin_not_admin cfg caller db hnot,
    cmd_approve_not_admin cfg caller args db now ok hnot⟩

/-- A configuration whose allow-list has only non-numeric entries. -/
def witCfgBad : Config := ⟨"abc, ,12x", "1111-2222", "Owner", "ton://wallet"⟩

/-- A configuration with the allow-list unset (empty string default). -/
def witCfgUnset : Config := ⟨"", "1111-2222", "Owner", "ton://wallet"⟩

/-- Witness for C10: with allow-list `"abc, ,12x"` (no pure-digit entry)
or the unset default `""`, the parsed set is empty and caller 7 — or
anyone — is rejected by both commands with no state change. -/
theorem empty_allowlist_rejects_everyone_witness :
    (∀ x ∈ splitOnChar ',' witCfgBad.admin_chat_id,
      pyIsDigit (pyStrip x) = false)
    ∧ parseAdminIds witCfgBad.admin_chat_id = []
    ∧ cmd_admin witCfgBad 7 witDBFull = (witDBFull, [adminOnlyMsg])
    ∧ cmd_approve witCfgBad 7 ["1"] witDBFull 20 true
        = (witDBFull, [adminOnlyMsg], [])
    ∧ parseAdminIds witCfgUnset.admin_chat_id = []
    ∧ cmd_admin witCfgUnset 7 witDBFull = (witDBFull, [adminOnlyMsg]) := by
  have hbad := empty_allowlist_rejects_everyone witCfgBad (by decide)
  have hunset := empty_allowlist_rejects_everyone witCfgUnset (by decide)
  exact ⟨by decide, hbad.1, (hbad.2 7 witDBFull ["1"] 20 true).1,
    (hbad.2 7 witDBFull ["1"] 20 true).2.2, hunset.1,
    (hunset.2 7 witDBFull [] 0 true).1⟩

end FitnessBot
